import Mathlib

/-!
Shallow embedding of the connection and credential lifecycle subsystem of
`src/helpers/dataverseHelper.ts` (class `DataverseHelper`).

Modelling conventions:
* VS Code workspace state under `connectionCurrentStoreKey` (the "Overlay",
  a single slot holding the current connection) is `Stores.workspace :
  Option IConnection`; global state under `connectionStoreKey` (the
  "Registry", stored as a JSON-encoded list) is `Stores.global :
  Option (List IConnection)`, where `none` means the key is unset and the
  JSON encode/decode round trip is taken as the identity.
* The login functions imported from `../login/login` (a module that is an
  external collaborator of this file) are an oracle record `AuthOracle`;
  per the documented strategy contract, each full strategy either returns
  a populated token or fails with an `AuthenticationError` (`Except
  AuthError Token`), while the refresh exchange either yields a token or
  yields nothing, which only triggers the fallback (`Option Token`).
* JavaScript truthiness on optional strings (`if (!resp)`, `if (jsonConn)`)
  is `truthy : Option String → Bool`: both a missing value and the empty
  string are falsy.
* User interaction (`showInputBox` / `showQuickPick` answers) is a
  `WizardInput` record of the responses, one per prompt.
* Side effects relevant to the claims are recorded in an event trace
  (`List Event`) so that ordering and invocation counts can be stated.
-/

namespace DVDT

/-- The four login-type tags of the `loginTypes` enum. In the spec's
vocabulary: `userNamePassword` = PasswordCredential, `clientIdSecret` =
ClientCredential, `microsoftLogin` = InteractiveBrowser (the
`loginWithPrompt` strategy that opens a login page and waits for the
redirect), `azure` = PlatformDelegated (the `loginWithAzure` strategy that
uses the already-authenticated host identity from the endpoint alone). -/
inductive LoginType
  | userNamePassword
  | clientIdSecret
  | microsoftLogin
  | azure
deriving DecidableEq, Repr

/-- Result of an authentication attempt (interface `Token`): access token
and optional refresh token, both optional at the type level as in the
source interface. -/
structure Token where
  access_token : Option String
  refresh_token : Option String
deriving DecidableEq, Repr

/-- One named connection (interface `IConnection`). `userName` doubles as
the client id for the client-id/secret scheme, exactly as in the wizard,
and is also overwritten with the decoded `upn` claim on reconnect. -/
structure IConnection where
  environmentUrl : String
  loginType : LoginType
  userName : Option String := none
  password : Option String := none
  tenantId : Option String := none
  connectionName : String
  environmentType : Option String := none
  currentAccessToken : Option String := none
  refreshToken : Option String := none
deriving DecidableEq, Repr

/-- The two key/value slots the helper reads and writes: the workspace
slot under `connectionCurrentStoreKey` (Overlay) and the global slot
under `connectionStoreKey` (Registry, JSON list). `none` = key unset. -/
structure Stores where
  workspace : Option IConnection
  global : Option (List IConnection)
deriving DecidableEq, Repr

/-- A failed authentication exchange: the scheme attempted and a cause. -/
inductive AuthError
  | authFailed (scheme : LoginType) (cause : String)
deriving DecidableEq, Repr

/-- The login functions of `../login/login`, as an oracle. The
interactive-prompt strategy's URL-opening callback (`openUri`) and
timeout hook (`redirectTimeout`) are external collaborators with no
bearing on the state examined here and are dropped from the signature. -/
structure AuthOracle where
  loginWithRefreshToken : String → String → String → Option Token
  loginWithUsernamePassword : String → Option String → Option String → Except AuthError Token
  loginWithClientIdSecret : String → Option String → Option String → Option String → Except AuthError Token
  loginWithPrompt : String → Bool → String → Except AuthError Token
  loginWithAzure : String → Except AuthError Token

/-- Modelled from the spec: the fixed client identifier
`customDataverseClientId` lives in `utils/Constants.ts`, which is not
part of the embedded source; only its role as an opaque constant
matters. -/
def customDataverseClientId : String := "custom-dataverse-client-id"

/-- Modelled from the spec: display string of the username/password tag
(`utils/Constants.ts` is not part of the embedded source; the four tags
only need to be distinct strings). -/
def loginTypes.userNamePassword : String := "Username/Password"

/-- Modelled from the spec: display string of the client-id/secret tag. -/
def loginTypes.clientIdSecret : String := "Client Id and Secret"

/-- Modelled from the spec: display string of the interactive
Microsoft-login tag. -/
def loginTypes.microsoftLogin : String := "Microsoft Login Prompt"

/-- Modelled from the spec: display string of the Azure (platform
delegated) tag. -/
def loginTypes.azure : String := "Azure"

/-- Modelled from the spec: the reserved-word list of
`utils/Constants.ts` is not part of the embedded source; the spec names
the reserved connection name "connections". -/
def reservedWords : List String := ["connections"]

/-- JavaScript truthiness of an optional string: undefined and the empty
string are falsy. -/
def truthy : Option String → Bool
  | none => false
  | some s => !s.isEmpty

/-- Observable steps of the creation and reauthentication flows, recorded
in order of occurrence. -/
inductive Event
  | readRefreshToken (present : Bool)
  | refreshAttempt
  | fallbackAttempt (lt : LoginType)
  | registryCreate
  | nameConflictError
  | authenticate (lt : LoginType)
  | overlayWrite
deriving DecidableEq, Repr

/-- Predicate for refresh-exchange events. -/
def isRefreshAttempt : Event → Bool
  | Event.refreshAttempt => true
  | _ => false

/-- Predicate for fallback strategy invocations. -/
def isFallbackAttempt : Event → Bool
  | Event.fallbackAttempt _ => true
  | _ => false

/-- Number of events of a given kind in a trace. -/
def countEvent (tr : List Event) (p : Event → Bool) : Nat :=
  (tr.filter p).length

/-- Translation of `getConnectionByName` (lines 556-568): the workspace
record wins when its name matches exactly; otherwise the global JSON list
is searched; an unset global key yields nothing. -/
def getConnectionByName (connName : String) (st : Stores) : Option IConnection :=
  match st.workspace with
  | some connFromWS =>
    if connFromWS.connectionName == connName then some connFromWS
    else
      match st.global with
      | some conns => conns.find? (fun c => c.connectionName == connName)
      | none => none
  | none =>
    match st.global with
    | some conns => conns.find? (fun c => c.connectionName == connName)
    | none => none

/-- Translation of `saveConnection` (lines 500-515): if the name does not
resolve to an existing record, append to the global list (creating it if
the key was unset); otherwise only an error message is shown and the
stores are untouched. -/
def saveConnection (connDetail : IConnection) (st : Stores) : Stores × List Event :=
  if (getConnectionByName connDetail.connectionName st).isNone then
    match st.global with
    | some conns => ({ st with global := some (conns ++ [connDetail]) }, [Event.registryCreate])
    | none => ({ st with global := some [connDetail] }, [Event.registryCreate])
  else
    (st, [Event.nameConflictError])

/-- Translation of `removeConnectionInternal` (lines 537-554): find the
first record with the given name, splice it out when found (a missing
record gives `indexOf` -1 and no splice), then save the list back when
non-empty and unset the global key when empty. -/
def removeConnectionInternal (connName : String) (st : Stores) : Stores :=
  match st.global with
  | none => st
  | some conns =>
    let resultConn := conns.find? (fun c => c.connectionName == connName)
    let conns' : List IConnection :=
      match resultConn with
      | some _ => conns.eraseIdx (conns.findIdx (fun c => c.connectionName == connName))
      | none => conns
    if conns'.length > 0 then { st with global := some conns' }
    else { st with global := none }

/-- Translation of `removeConnection` (lines 517-522): the modal warning
is the confirmation gate; only the answer "Yes" mutates state. -/
def removeConnection (respDeleteConfirm : String) (connName : String) (st : Stores) : Stores :=
  if respDeleteConfirm == "Yes" then removeConnectionInternal connName st else st

/-- The error message a TypeError raised by reading a property of
`undefined` carries, used by `getTokenFromCurrentConnection` when the
workspace slot is empty. -/
def typeErrorMsg : String := "TypeError: cannot read currentAccessToken of undefined"

/-- Translation of `getTokenFromCurrentConnection` (lines 169-172): the
workspace record is dereferenced without a presence check, so an empty
Overlay raises a TypeError (`Except.error`); a present record yields its
(possibly absent) access token. -/
def getTokenFromCurrentConnection (st : Stores) : Except String (Option String) :=
  match st.workspace with
  | some connFromWS => Except.ok connFromWS.currentAccessToken
  | none => Except.error typeErrorMsg

/-- The answers the user gives to the wizard's prompts, one field per
prompt (`showInputBox` / `showQuickPick` return an optional string; a
dismissed prompt is `none`). -/
structure WizardInput where
  envUrl : Option String
  loginTypeChoice : Option String
  username : Option String
  password : Option String
  clientId : Option String
  clientSecret : Option String
  tenantId : Option String
  connName : Option String
  envType : Option String
deriving DecidableEq, Repr

/-- Translation of `connectionWizard` (lines 397-484). The environment
URL is required; the quick-pick answer defaults to the empty string and
is switched over the four tags, where the Azure and Microsoft-login cases
normalise the stored tag and everything unrecognised falls into the
Microsoft-login default; scheme-specific prompts abort on a falsy answer;
the name is rejected when reserved or missing; the draft is handed to
`saveConnection` and returned regardless of that save's outcome. -/
def connectionWizard (inp : WizardInput) (st : Stores) :
    Option IConnection × Stores × List Event :=
  if !truthy inp.envUrl then (none, st, [])
  else
    let logintypeResponse := inp.loginTypeChoice.getD ""
    let credentials : Option (LoginType × Option String × Option String × Option String) :=
      if logintypeResponse == loginTypes.userNamePassword then
        if !truthy inp.username then none
        else if !truthy inp.password then none
        else some (LoginType.userNamePassword, inp.username, inp.password, none)
      else if logintypeResponse == loginTypes.clientIdSecret then
        if !truthy inp.clientId then none
        else if !truthy inp.clientSecret then none
        else if !truthy inp.tenantId then none
        else some (LoginType.clientIdSecret, inp.clientId, inp.clientSecret, inp.tenantId)
      else if logintypeResponse == loginTypes.azure then
        some (LoginType.azure, none, none, none)
      else
        some (LoginType.microsoftLogin, none, none, none)
    match credentials with
    | none => (none, st, [])
    | some (selectedLogin, usernameUserResponse, passwordUserResponse, tenantIdResponse) =>
      if truthy inp.connName && reservedWords.contains (inp.connName.getD "") then
        (none, st, [])
      else if !truthy inp.connName then (none, st, [])
      else
        let conn : IConnection :=
          { environmentUrl := inp.envUrl.getD ""
            loginType := selectedLogin
            userName := usernameUserResponse
            password := passwordUserResponse
            tenantId := tenantIdResponse
            connectionName := inp.connName.getD ""
            environmentType := if truthy inp.envType then inp.envType else none }
        let saved := saveConnection conn st
        (some conn, saved.1, saved.2)

/-- Translation of `connectInternal` (lines 486-498): pure dispatch on
the login type (with the unknown-tag default collapsed into the
Microsoft-login case, which is exact here because every stored login type
is one of the four tags). -/
def connectInternal (o : AuthOracle) (loginType : LoginType) (conn : IConnection) :
    Except AuthError Token :=
  match loginType with
  | LoginType.userNamePassword =>
    o.loginWithUsernamePassword conn.environmentUrl conn.userName conn.password
  | LoginType.clientIdSecret =>
    o.loginWithClientIdSecret conn.environmentUrl conn.userName conn.password conn.tenantId
  | LoginType.azure => o.loginWithAzure conn.environmentUrl
  | LoginType.microsoftLogin =>
    o.loginWithPrompt customDataverseClientId false conn.environmentUrl

/-- Translation of `addConnection` (lines 59-77): run the wizard, and for
a produced draft authenticate it, copy both token fields from the
response, and save the draft into the workspace slot; an authentication
error is rethrown (`catch (err) { throw err; }`). -/
def addConnection (inp : WizardInput) (o : AuthOracle) (st : Stores) :
    Except AuthError (Option IConnection) × Stores × List Event :=
  match connectionWizard inp st with
  | (none, st1, ev1) => (Except.ok none, st1, ev1)
  | (some conn, st1, ev1) =>
    match connectInternal o conn.loginType conn with
    | Except.error err => (Except.error err, st1, ev1 ++ [Event.authenticate conn.loginType])
    | Except.ok tokenResponse =>
      let conn2 : IConnection :=
        { conn with
          currentAccessToken := tokenResponse.access_token
          refreshToken := tokenResponse.refresh_token }
      (Except.ok (some conn2), { st1 with workspace := some conn2 },
        ev1 ++ [Event.authenticate conn.loginType, Event.overlayWrite])

/-- Translation of `connectToDataverse` (lines 101-138). The body returns
the progress task's promise from inside the try block without awaiting
it, so a rejection of that task (an authentication failure) is adopted by
the caller after the try scope is left and bypasses the empty catch
block, which only guards the synchronous name resolution; hence the
`Except.error` outcome propagates. An unresolvable name yields
`Except.ok none`. The decoding of the access token's middle segment is
the collaborator `decodeUpn`; the follow-up metadata and web-resource
fetches are out of scope. -/
def connectToDataverse (o : AuthOracle) (decodeUpn : String → Option String)
    (connName : String) (st : Stores) :
    Except AuthError (Option IConnection) × Stores × List Event :=
  match getConnectionByName connName st with
  | none => (Except.ok none, st, [])
  | some conn =>
    match connectInternal o conn.loginType conn with
    | Except.error err => (Except.error err, st, [Event.authenticate conn.loginType])
    | Except.ok tokenResponse =>
      let conn1 : IConnection := { conn with currentAccessToken := tokenResponse.access_token }
      let conn2 : IConnection :=
        if truthy tokenResponse.access_token then
          { conn1 with userName := decodeUpn (tokenResponse.access_token.getD "") }
        else conn1
      let conn3 : IConnection := { conn2 with refreshToken := tokenResponse.refresh_token }
      (Except.ok (some conn3), { st with workspace := some conn3 },
        [Event.authenticate conn.loginType, Event.overlayWrite])

/-- Outcome of one `reAuthenticate` call: the value the call settles with
(an `AuthenticationError` rejection, or the possibly-absent token
together with the connection record as the call leaves it), the stores
after the call, and the event trace. -/
structure ReauthResult where
  outcome : Except AuthError (Option Token × IConnection)
  stores : Stores
  trace : List Event
deriving Repr

/-- Translation of `reAuthenticate` (lines 361-392). A truthy stored
refresh token is exchanged first; when that yields nothing the stored
login type is dispatched to the original strategy (the switch covers
exactly the four tags); a strategy rejection propagates, skipping the
remaining statements; otherwise both token fields are overwritten from
the response whenever one was obtained, and the record — updated or not —
is saved into the workspace slot. -/
def reAuthenticate (o : AuthOracle) (st : Stores) (currentConnection : IConnection) :
    ReauthResult :=
  let readEv := Event.readRefreshToken (truthy currentConnection.refreshToken)
  let step1 : Option Token × List Event :=
    if truthy currentConnection.refreshToken then
      (o.loginWithRefreshToken customDataverseClientId currentConnection.environmentUrl
        (currentConnection.refreshToken.getD ""), [readEv, Event.refreshAttempt])
    else (none, [readEv])
  let step2 : Except AuthError (Option Token) × List Event :=
    match step1 with
    | (some t, tr) => (Except.ok (some t), tr)
    | (none, tr) =>
      let tr' := tr ++ [Event.fallbackAttempt currentConnection.loginType]
      match currentConnection.loginType with
      | LoginType.userNamePassword =>
        ((o.loginWithUsernamePassword currentConnection.environmentUrl
            currentConnection.userName currentConnection.password).map some, tr')
      | LoginType.clientIdSecret =>
        ((o.loginWithClientIdSecret currentConnection.environmentUrl
            currentConnection.userName currentConnection.password
            currentConnection.tenantId).map some, tr')
      | LoginType.microsoftLogin =>
        ((o.loginWithPrompt customDataverseClientId false
            currentConnection.environmentUrl).map some, tr')
      | LoginType.azure =>
        ((o.loginWithAzure currentConnection.environmentUrl).map some, tr')
  match step2 with
  | (Except.error err, tr) => { outcome := Except.error err, stores := st, trace := tr }
  | (Except.ok tokenResponse, tr) =>
    let conn' : IConnection :=
      match tokenResponse with
      | some t =>
        { currentConnection with
          currentAccessToken := t.access_token
          refreshToken := t.refresh_token }
      | none => currentConnection
    { outcome := Except.ok (tokenResponse, conn')
      stores := { st with workspace := some conn' }
      trace := tr ++ [Event.overlayWrite] }

/-- Stage number of an event in the creation flow, for stating that the
flow's steps are strictly sequential: registry persistence (or the
conflict error in its place), then authentication, then the overlay
write. -/
def creationStage : Event → Nat
  | Event.registryCreate => 0
  | Event.nameConflictError => 0
  | Event.authenticate _ => 1
  | Event.overlayWrite => 2
  | _ => 0

/-- Stage number of an event in the reauthentication flow: the read of
the stored refresh token, then the refresh exchange, then the fallback
strategy, then the overlay write. -/
def reauthStage : Event → Nat
  | Event.readRefreshToken _ => 0
  | Event.refreshAttempt => 1
  | Event.fallbackAttempt _ => 2
  | Event.overlayWrite => 3
  | _ => 0

/-- Whether a string is one of the four login-type tags. -/
def knownLoginTag (s : String) : Bool :=
  s == loginTypes.userNamePassword || s == loginTypes.clientIdSecret ||
    s == loginTypes.azure || s == loginTypes.microsoftLogin

/-- A strategy failure used as the default behaviour of scenario
oracles. -/
def failWith (lt : LoginType) (cause : String) : Except AuthError Token :=
  Except.error (AuthError.authFailed lt cause)

/-- Scenario: a registry record named "dev" with cached tokens. -/
def devConn : IConnection :=
  { environmentUrl := "https://dev.crm.example.com"
    loginType := LoginType.userNamePassword
    userName := some "user@example.com"
    password := some "pw"
    connectionName := "dev"
    currentAccessToken := some "old-at"
    refreshToken := some "old-rt" }

/-- Scenario: stores whose registry already holds `devConn`. -/
def stC2 : Stores := { workspace := none, global := some [devConn] }

/-- Scenario: wizard answers that pick the Azure scheme and reuse the
already-taken name "dev". -/
def inpC2 : WizardInput :=
  { envUrl := some "https://new.crm.example.com"
    loginTypeChoice := some loginTypes.azure
    username := none, password := none, clientId := none
    clientSecret := none, tenantId := none
    connName := some "dev", envType := none }

/-- Scenario: an oracle whose Azure strategy succeeds and whose other
paths fail. -/
def oC2 : AuthOracle :=
  { loginWithRefreshToken := fun _ _ _ => none
    loginWithUsernamePassword := fun _ _ _ => failWith LoginType.userNamePassword "fail"
    loginWithClientIdSecret := fun _ _ _ _ => failWith LoginType.clientIdSecret "fail"
    loginWithPrompt := fun _ _ _ => failWith LoginType.microsoftLogin "fail"
    loginWithAzure := fun _ =>
      Except.ok { access_token := some "new-at", refresh_token := some "new-rt" } }

/-- The draft the wizard builds from `inpC2`. -/
def draftC2 : IConnection :=
  { environmentUrl := "https://new.crm.example.com"
    loginType := LoginType.azure
    connectionName := "dev" }

/-- The draft from `inpC2` after the creation flow authenticated it. -/
def connC2 : IConnection :=
  { draftC2 with currentAccessToken := some "new-at", refreshToken := some "new-rt" }

/-- Scenario: wizard answers with a dismissed login-type quick pick. -/
def inpC3 : WizardInput :=
  { envUrl := some "https://c3.crm.example.com"
    loginTypeChoice := none
    username := none, password := none, clientId := none
    clientSecret := none, tenantId := none
    connName := some "c3", envType := none }

/-- Scenario: both store keys unset. -/
def stEmpty : Stores := { workspace := none, global := none }

/-- The record the wizard creates from `inpC3`. -/
def connC3 : IConnection :=
  { environmentUrl := "https://c3.crm.example.com"
    loginType := LoginType.microsoftLogin
    connectionName := "c3" }

/-- Scenario: a record holding a refresh token, for the token-overwrite
behaviour. -/
def ccC4 : IConnection :=
  { environmentUrl := "https://c4.crm.example.com"
    loginType := LoginType.azure
    connectionName := "c4"
    currentAccessToken := some "old-at"
    refreshToken := some "old-rt" }

/-- Scenario: the refresh exchange succeeds with a response carrying no
refresh token; the full strategies fail. -/
def oC4 : AuthOracle :=
  { loginWithRefreshToken := fun _ _ _ =>
      some { access_token := some "new-at", refresh_token := none }
    loginWithUsernamePassword := fun _ _ _ => failWith LoginType.userNamePassword "fail"
    loginWithClientIdSecret := fun _ _ _ _ => failWith LoginType.clientIdSecret "fail"
    loginWithPrompt := fun _ _ _ => failWith LoginType.microsoftLogin "fail"
    loginWithAzure := fun _ => failWith LoginType.azure "fail" }

/-- The record `ccC4` as `reAuthenticate` under `oC4` leaves it. -/
def ccC4' : IConnection :=
  { ccC4 with currentAccessToken := some "new-at", refreshToken := none }

/-- Scenario: every authentication path fails. -/
def eC5 : AuthError := AuthError.authFailed LoginType.azure "endpoint down"

/-- Scenario: an oracle that yields nothing on refresh and rejects every
strategy with `eC5`. -/
def oC5 : AuthOracle :=
  { loginWithRefreshToken := fun _ _ _ => none
    loginWithUsernamePassword := fun _ _ _ => Except.error eC5
    loginWithClientIdSecret := fun _ _ _ _ => Except.error eC5
    loginWithPrompt := fun _ _ _ => Except.error eC5
    loginWithAzure := fun _ => Except.error eC5 }

/-- Scenario: a record with a stored (stale) refresh token. -/
def ccC5 : IConnection :=
  { environmentUrl := "https://c5.crm.example.com"
    loginType := LoginType.azure
    connectionName := "c5"
    currentAccessToken := some "stale-at"
    refreshToken := some "stale-rt" }

/-- Scenario: the Overlay's copy of a connection named "A". -/
def ovA : IConnection :=
  { environmentUrl := "https://overlay.crm.example.com"
    loginType := LoginType.azure
    connectionName := "A"
    currentAccessToken := some "ov-at" }

/-- Scenario: the Registry's different copy of a connection named "A". -/
def regA : IConnection :=
  { environmentUrl := "https://registry.crm.example.com"
    loginType := LoginType.azure
    connectionName := "A" }

/-- Scenario: the single remaining registry record, named "d7". -/
def connC7 : IConnection :=
  { environmentUrl := "https://c7.crm.example.com"
    loginType := LoginType.azure
    connectionName := "d7" }

/-- Scenario: wizard answers creating a fresh Azure connection "c8". -/
def inpC8 : WizardInput :=
  { envUrl := some "https://c8.crm.example.com"
    loginTypeChoice := some loginTypes.azure
    username := none, password := none, clientId := none
    clientSecret := none, tenantId := none
    connName := some "c8", envType := none }

/-- The token the Azure strategy of `oC8` returns. -/
def tokC8 : Token := { access_token := some "at8", refresh_token := none }

/-- Scenario: an oracle whose Azure strategy succeeds with `tokC8`. -/
def oC8 : AuthOracle :=
  { loginWithRefreshToken := fun _ _ _ => none
    loginWithUsernamePassword := fun _ _ _ => failWith LoginType.userNamePassword "fail"
    loginWithClientIdSecret := fun _ _ _ _ => failWith LoginType.clientIdSecret "fail"
    loginWithPrompt := fun _ _ _ => failWith LoginType.microsoftLogin "fail"
    loginWithAzure := fun _ => Except.ok tokC8 }

/-- The record the wizard creates from `inpC8`. -/
def connC8 : IConnection :=
  { environmentUrl := "https://c8.crm.example.com"
    loginType := LoginType.azure
    connectionName := "c8" }

/-- Scenario: the authentication error every strategy of `oC9` rejects
with. -/
def eC9 : AuthError := AuthError.authFailed LoginType.userNamePassword "bad credentials"

/-- Scenario: an oracle all of whose strategies reject with `eC9`. -/
def oC9 : AuthOracle :=
  { loginWithRefreshToken := fun _ _ _ => none
    loginWithUsernamePassword := fun _ _ _ => Except.error eC9
    loginWithClientIdSecret := fun _ _ _ _ => Except.error eC9
    loginWithPrompt := fun _ _ _ => Except.error eC9
    loginWithAzure := fun _ => Except.error eC9 }

/-- Helper: in a list splitting as `pre ++ c :: post` where nothing in
`pre` satisfies `p` and `c` does, `find?` returns `c`, `findIdx` is
`pre.length`, and erasing that index removes exactly `c`. -/
theorem find_first_in_append (p : IConnection → Bool) (pre post : List IConnection)
    (c : IConnection) (hpre : ∀ x ∈ pre, p x = false) (hc : p c = true) :
    (pre ++ c :: post).find? p = some c
    ∧ (pre ++ c :: post).findIdx p = pre.length
    ∧ (pre ++ c :: post).eraseIdx pre.length = pre ++ post := by
  induction pre with
  | nil =>
    refine ⟨?_, ?_, ?_⟩ <;> simp [List.find?_cons, List.findIdx_cons, hc]
  | cons a tl ih =>
    have ha : p a = false := hpre a (List.mem_cons_self a tl)
    have htl : ∀ x ∈ tl, p x = false := fun x hx => hpre x (List.mem_cons_of_mem a hx)
    obtain ⟨f1, f2, f3⟩ := ih htl
    refine ⟨?_, ?_, ?_⟩
    · simpa [List.find?_cons, ha] using f1
    · simp [List.findIdx_cons, ha, f2]
    · simpa [List.eraseIdx] using f3

/-- Helper: the registry save attempt emits exactly one event — the
creation or the conflict error. -/
theorem saveConnection_trace (c : IConnection) (st : Stores) :
    (saveConnection c st).2 = [Event.registryCreate]
    ∨ (saveConnection c st).2 = [Event.nameConflictError] := by
  unfold saveConnection
  split
  · split <;> simp
  · simp

/-- Helper: a wizard run either aborts with the stores untouched and an
empty trace, or produces a draft and hands it to the registry save. -/
theorem connectionWizard_shape (inp : WizardInput) (st : Stores) :
    (connectionWizard inp st = (none, st, []))
    ∨ (∃ conn, connectionWizard inp st =
        (some conn, (saveConnection conn st).1, (saveConnection conn st).2)) := by
  unfold connectionWizard
  by_cases h0 : (!truthy inp.envUrl) = true
  · rw [if_pos h0]; exact Or.inl rfl
  · rw [if_neg h0]
    dsimp only
    by_cases h1 : (inp.loginTypeChoice.getD "" == loginTypes.userNamePassword) = true
    · rw [if_pos h1]
      by_cases h1a : (!truthy inp.username) = true
      · rw [if_pos h1a]; exact Or.inl rfl
      · rw [if_neg h1a]
        by_cases h1b : (!truthy inp.password) = true
        · rw [if_pos h1b]; exact Or.inl rfl
        · rw [if_neg h1b]
          dsimp only
          by_cases h2 : (truthy inp.connName && reservedWords.contains (inp.connName.getD "")) = true
          · rw [if_pos h2]; exact Or.inl rfl
          · rw [if_neg h2]
            by_cases h3 : (!truthy inp.connName) = true
            · rw [if_pos h3]; exact Or.inl rfl
            · rw [if_neg h3]; exact Or.inr ⟨_, rfl⟩
    · rw [if_neg h1]
      by_cases h4 : (inp.loginTypeChoice.getD "" == loginTypes.clientIdSecret) = true
      · rw [if_pos h4]
        by_cases h4a : (!truthy inp.clientId) = true
        · rw [if_pos h4a]; exact Or.inl rfl
        · rw [if_neg h4a]
          by_cases h4b : (!truthy inp.clientSecret) = true
          · rw [if_pos h4b]; exact Or.inl rfl
          · rw [if_neg h4b]
            by_cases h4c : (!truthy inp.tenantId) = true
            · rw [if_pos h4c]; exact Or.inl rfl
            · rw [if_neg h4c]
              dsimp only
              by_cases h2 : (truthy inp.connName && reservedWords.contains (inp.connName.getD "")) = true
              · rw [if_pos h2]; exact Or.inl rfl
              · rw [if_neg h2]
                by_cases h3 : (!truthy inp.connName) = true
                · rw [if_pos h3]; exact Or.inl rfl
                · rw [if_neg h3]; exact Or.inr ⟨_, rfl⟩
      · rw [if_neg h4]
        by_cases h5 : (inp.loginTypeChoice.getD "" == loginTypes.azure) = true
        · rw [if_pos h5]
          dsimp only
          by_cases h2 : (truthy inp.connName && reservedWords.contains (inp.connName.getD "")) = true
          · rw [if_pos h2]; exact Or.inl rfl
          · rw [if_neg h2]
            by_cases h3 : (!truthy inp.connName) = true
            · rw [if_pos h3]; exact Or.inl rfl
            · rw [if_neg h3]; exact Or.inr ⟨_, rfl⟩
        · rw [if_neg h5]
          dsimp only
          by_cases h2 : (truthy inp.connName && reservedWords.contains (inp.connName.getD "")) = true
          · rw [if_pos h2]; exact Or.inl rfl
          · rw [if_neg h2]
            by_cases h3 : (!truthy inp.connName) = true
            · rw [if_pos h3]; exact Or.inl rfl
            · rw [if_neg h3]; exact Or.inr ⟨_, rfl⟩

/-- C6: name resolution returns the Overlay's record exactly when the
Overlay is non-empty and its record's name equals the target; otherwise
it returns the first Registry record with that name (or nothing when the
key is unset or no record matches) — so when both stores hold the name,
the Overlay's copy is returned. -/
theorem getConnectionByName_resolution (connName : String) (st : Stores) :
    (∀ c, st.workspace = some c → c.connectionName = connName →
        getConnectionByName connName st = some c)
    ∧ ((∀ c, st.workspace = some c → c.connectionName ≠ connName) →
        getConnectionByName connName st =
          (st.global.getD []).find? (fun c => c.connectionName == connName)) := by
  constructor
  · intro c hw hn
    simp [getConnectionByName, hw, hn]
  · intro h
    match hw : st.workspace with
    | none =>
      cases hg : st.global <;> simp [getConnectionByName, hw, hg]
    | some c =>
      have hne := h c hw
      cases hg : st.global <;> simp [getConnectionByName, hw, hg, hne]

/-- Witness for the name-resolution theorem: with the Overlay holding
record "A" and the Registry holding a different record named "A",
resolution returns the Overlay's copy. -/
theorem getConnectionByName_resolution_witness :
    getConnectionByName "A" { workspace := some ovA, global := some [regA] } = some ovA :=
  (getConnectionByName_resolution "A"
    { workspace := some ovA, global := some [regA] }).1 ovA rfl rfl

/-- C10: reading the current access token with an empty Overlay
dereferences the missing record and raises a TypeError; an absent token
(`Except.ok none`) is only returned when a record exists without a cached
token. -/
theorem getTokenFromCurrentConnection_empty_overlay (st : Stores) :
    (st.workspace = none →
        getTokenFromCurrentConnection st = Except.error typeErrorMsg)
    ∧ (∀ c, st.workspace = some c →
        getTokenFromCurrentConnection st = Except.ok c.currentAccessToken) := by
  constructor
  · intro h; simp [getTokenFromCurrentConnection, h]
  · intro c h; simp [getTokenFromCurrentConnection, h]

/-- Witness: with both store keys unset, reading the current token is the
TypeError, not a total "no token" result. -/
theorem getTokenFromCurrentConnection_empty_overlay_witness :
    getTokenFromCurrentConnection stEmpty = Except.error typeErrorMsg :=
  (getTokenFromCurrentConnection_empty_overlay stEmpty).1 rfl

/-- C2 (run at the failing input): creating a connection whose name "dev"
already resolves to a registry record shows the name-conflict error, yet
the flow does not abort — the draft is still authenticated and cached in
the Overlay with fresh tokens; only the registry (and so the existing
record's token fields) is left unchanged. -/
theorem addConnection_conflict_run :
    addConnection inpC2 oC2 stC2 =
      (Except.ok (some connC2),
        { workspace := some connC2, global := some [devConn] },
        [Event.nameConflictError, Event.authenticate LoginType.azure,
          Event.overlayWrite]) := rfl

/-- C3 counterexample: with the login-type quick pick dismissed (no
usable selection) the wizard creates the record with login type
`microsoftLogin` — the interactive-browser scheme — and not `azure`, the
platform-delegated scheme the claim names as the default. -/
theorem connectionWizard_default_counterexample :
    (connectionWizard inpC3 stEmpty).1 = some connC3
    ∧ connC3.loginType = LoginType.microsoftLogin
    ∧ LoginType.microsoftLogin ≠ LoginType.azure :=
  ⟨rfl, rfl, by decide⟩

/-- C3 (amended): when the login-type selection is absent or not one of
the four scheme tags, any record the wizard creates carries the
`microsoftLogin` (interactive browser) login type. -/
theorem connectionWizard_default_microsoftLogin (inp : WizardInput) (st : Stores)
    (conn : IConnection)
    (hsel : knownLoginTag (inp.loginTypeChoice.getD "") = false)
    (hc : (connectionWizard inp st).1 = some conn) :
    conn.loginType = LoginType.microsoftLogin := by
  simp only [knownLoginTag, Bool.or_eq_false_iff] at hsel
  obtain ⟨⟨⟨h1, h2⟩, h3⟩, h4⟩ := hsel
  unfold connectionWizard at hc
  simp only [h1, h2, h3] at hc
  repeat' split at hc
  all_goals simp_all
  all_goals (subst hc; rfl)

/-- Witness for the amended default: the concrete dismissed quick pick of
`inpC3` produces a record whose login type is `microsoftLogin`. -/
theorem connectionWizard_default_microsoftLogin_witness :
    connC3.loginType = LoginType.microsoftLogin :=
  connectionWizard_default_microsoftLogin inpC3 stEmpty connC3 (by decide) rfl

/-- C4 counterexample: with a stored refresh token "old-rt" and a refresh
response that supplies no refresh token, reauthentication does not leave
the stored refresh token at its previous value — the field is overwritten
with the absent value. -/
theorem reAuthenticate_refresh_clear_counterexample :
    (reAuthenticate oC4 stEmpty ccC4).outcome =
      Except.ok (some { access_token := some "new-at", refresh_token := none }, ccC4')
    ∧ ccC4.refreshToken = some "old-rt"
    ∧ ccC4'.refreshToken = none
    ∧ ccC4'.refreshToken ≠ ccC4.refreshToken :=
  ⟨rfl, rfl, rfl, by decide⟩

/-- C4 (amended): whenever reauthentication settles with a token, the
resulting record's access token and refresh token are both overwritten
from the response — the refresh token unconditionally, so it is cleared
rather than kept when the response supplies none — and the record is
written to the Overlay. -/
theorem reAuthenticate_overwrites_both_tokens (o : AuthOracle) (st : Stores)
    (cc : IConnection) (t : Token) (conn' : IConnection)
    (h : (reAuthenticate o st cc).outcome = Except.ok (some t, conn')) :
    conn'.currentAccessToken = t.access_token
    ∧ conn'.refreshToken = t.refresh_token
    ∧ (reAuthenticate o st cc).stores.workspace = some conn' := by
  unfold reAuthenticate at h ⊢
  cases hrt : truthy cc.refreshToken with
  | true =>
    simp only [hrt, if_true] at h ⊢
    cases hres : o.loginWithRefreshToken customDataverseClientId cc.environmentUrl
        (cc.refreshToken.getD "") with
    | some t0 =>
      simp only [hres] at h ⊢
      simp only [Except.ok.injEq, Prod.mk.injEq, Option.some.injEq] at h
      obtain ⟨ht, hconn⟩ := h
      subst ht; subst hconn
      exact ⟨rfl, rfl, rfl⟩
    | none =>
      simp only [hres] at h ⊢
      cases hlt : cc.loginType <;> simp only [hlt] at h ⊢ <;>
        [cases hf : o.loginWithUsernamePassword cc.environmentUrl cc.userName cc.password;
         cases hf : o.loginWithClientIdSecret cc.environmentUrl cc.userName cc.password cc.tenantId;
         cases hf : o.loginWithPrompt customDataverseClientId false cc.environmentUrl;
         cases hf : o.loginWithAzure cc.environmentUrl] <;>
      simp only [hf, Except.map] at h ⊢ <;>
      first
        | exact Except.noConfusion h
        | (simp only [Except.ok.injEq, Prod.mk.injEq, Option.some.injEq] at h
           obtain ⟨ht, hconn⟩ := h
           subst ht; subst hconn
           exact ⟨rfl, rfl, rfl⟩)
  | false =>
    simp only [hrt, Bool.false_eq_true, if_false] at h ⊢
    cases hlt : cc.loginType <;> simp only [hlt] at h ⊢ <;>
      [cases hf : o.loginWithUsernamePassword cc.environmentUrl cc.userName cc.password;
       cases hf : o.loginWithClientIdSecret cc.environmentUrl cc.userName cc.password cc.tenantId;
       cases hf : o.loginWithPrompt customDataverseClientId false cc.environmentUrl;
       cases hf : o.loginWithAzure cc.environmentUrl] <;>
    simp only [hf, Except.map] at h ⊢ <;>
    first
      | exact Except.noConfusion h
      | (simp only [Except.ok.injEq, Prod.mk.injEq, Option.some.injEq] at h
         obtain ⟨ht, hconn⟩ := h
         subst ht; subst hconn
         exact ⟨rfl, rfl, rfl⟩)

/-- Witness for the token-overwrite theorem at the concrete `oC4`
scenario: both fields come from the response and the Overlay holds the
updated record. -/
theorem reAuthenticate_overwrites_both_tokens_witness :
    ccC4'.currentAccessToken = some "new-at"
    ∧ ccC4'.refreshToken = (none : Option String)
    ∧ (reAuthenticate oC4 stEmpty ccC4).stores.workspace = some ccC4' := by
  have h := reAuthenticate_overwrites_both_tokens oC4 stEmpty ccC4
      { access_token := some "new-at", refresh_token := none } ccC4' rfl
  exact ⟨h.1, h.2.1, h.2.2⟩

/-- C5: when the refresh path yields nothing and the fallback strategy
rejects, the reauthentication call settles with that rejection — no token
— and the stores (hence any stored record's token fields) are exactly as
before the call. -/
theorem reAuthenticate_no_token_failure (o : AuthOracle) (st : Stores) (cc : IConnection)
    (e : AuthError)
    (h1 : (if truthy cc.refreshToken then
             o.loginWithRefreshToken customDataverseClientId cc.environmentUrl
               (cc.refreshToken.getD "")
           else none) = none)
    (h2 : connectInternal o cc.loginType cc = Except.error e) :
    (reAuthenticate o st cc).outcome = Except.error e
    ∧ (reAuthenticate o st cc).stores = st := by
  unfold reAuthenticate
  unfold connectInternal at h2
  cases hrt : truthy cc.refreshToken with
  | true =>
    simp only [hrt, if_true] at h1 ⊢
    simp only [h1]
    cases hlt : cc.loginType <;> simp only [hlt] at h2 ⊢ <;>
      simp [h2, Except.map]
  | false =>
    simp only [hrt, Bool.false_eq_true, if_false]
    cases hlt : cc.loginType <;> simp only [hlt] at h2 ⊢ <;>
      simp [h2, Except.map]

/-- Witness for the failure theorem at the concrete `oC5` scenario: a
stale refresh token that yields nothing and an unreachable endpoint leave
the stores untouched and surface the rejection. -/
theorem reAuthenticate_no_token_failure_witness :
    (reAuthenticate oC5 stEmpty ccC5).outcome = Except.error eC5
    ∧ (reAuthenticate oC5 stEmpty ccC5).stores = stEmpty :=
  reAuthenticate_no_token_failure oC5 stEmpty ccC5 eC5 rfl rfl

/-- C1: reauthentication attempts the refresh exchange exactly once when
a (non-empty) refresh token is stored and never otherwise, and invokes
the original-scheme strategy exactly once when the refresh attempt
produced no token (or none was stored) and never when the refresh
exchange succeeded. -/
theorem reAuthenticate_refresh_then_fallback (o : AuthOracle) (st : Stores) (cc : IConnection) :
    countEvent (reAuthenticate o st cc).trace isRefreshAttempt
      = (if truthy cc.refreshToken then 1 else 0)
    ∧ countEvent (reAuthenticate o st cc).trace isFallbackAttempt
      = (if (if truthy cc.refreshToken then
               o.loginWithRefreshToken customDataverseClientId cc.environmentUrl
                 (cc.refreshToken.getD "")
             else none).isSome
         then 0 else 1) := by
  unfold reAuthenticate
  cases hrt : truthy cc.refreshToken with
  | true =>
    simp only [hrt, if_true]
    cases hres : o.loginWithRefreshToken customDataverseClientId cc.environmentUrl
        (cc.refreshToken.getD "") with
    | some t0 => simp [countEvent, List.filter, isRefreshAttempt, isFallbackAttempt]
    | none =>
      cases hlt : cc.loginType <;> simp only [hlt] <;>
        [cases hf : o.loginWithUsernamePassword cc.environmentUrl cc.userName cc.password;
         cases hf : o.loginWithClientIdSecret cc.environmentUrl cc.userName cc.password cc.tenantId;
         cases hf : o.loginWithPrompt customDataverseClientId false cc.environmentUrl;
         cases hf : o.loginWithAzure cc.environmentUrl] <;>
      simp [hf, Except.map, countEvent, List.filter, isRefreshAttempt, isFallbackAttempt]
  | false =>
    simp only [hrt, Bool.false_eq_true, if_false]
    cases hlt : cc.loginType <;> simp only [hlt] <;>
      [cases hf : o.loginWithUsernamePassword cc.environmentUrl cc.userName cc.password;
       cases hf : o.loginWithClientIdSecret cc.environmentUrl cc.userName cc.password cc.tenantId;
       cases hf : o.loginWithPrompt customDataverseClientId false cc.environmentUrl;
       cases hf : o.loginWithAzure cc.environmentUrl] <;>
    simp [hf, Except.map, countEvent, List.filter, isRefreshAttempt, isFallbackAttempt]

/-- C7: the confirmed single delete removes exactly the first record
whose name matches, and when that removal empties the collection the
backing key is unset (`none`) rather than left as an empty list. -/
theorem removeConnection_first_match_and_unset (connName : String) (st : Stores)
    (pre post : List IConnection) (c : IConnection)
    (hg : st.global = some (pre ++ c :: post))
    (hpre : ∀ x ∈ pre, x.connectionName ≠ connName)
    (hc : c.connectionName = connName) :
    (removeConnection "Yes" connName st).global =
      if pre ++ post = [] then none else some (pre ++ post) := by
  have hp : ∀ x ∈ pre, (fun d : IConnection => d.connectionName == connName) x = false := by
    intro x hx
    simpa [beq_eq_false_iff_ne] using hpre x hx
  have hcb : (fun d : IConnection => d.connectionName == connName) c = true := by simp [hc]
  obtain ⟨f1, f2, f3⟩ := find_first_in_append _ pre post c hp hcb
  unfold removeConnection removeConnectionInternal
  rw [hg]
  simp only [beq_self_eq_true, if_true]
  simp only [f1, f2, f3]
  cases hpp : pre ++ post with
  | nil => simp [hpp]
  | cons hd tlp => simp [hpp]

/-- Witness for the delete theorem: removing the single remaining record
"d7" leaves the registry key absent, so a reload sees no records rather
than an empty list. -/
theorem removeConnection_first_match_and_unset_witness :
    (removeConnection "Yes" "d7" { workspace := none, global := some [connC7] }).global
      = none := by
  have h := removeConnection_first_match_and_unset "d7"
      { workspace := none, global := some [connC7] } [] [] connC7 rfl (by simp) rfl
  simpa using h

/-- Helper: every reauthentication trace is strictly ordered by
`reauthStage`. -/
theorem reAuthenticate_trace_ordered (o : AuthOracle) (st : Stores) (cc : IConnection) :
    ((reAuthenticate o st cc).trace).Pairwise (fun a b => reauthStage a < reauthStage b) := by
  unfold reAuthenticate
  cases hrt : truthy cc.refreshToken with
  | true =>
    simp only [hrt, if_true]
    cases hres : o.loginWithRefreshToken customDataverseClientId cc.environmentUrl
        (cc.refreshToken.getD "") with
    | some t0 => simp [reauthStage, List.pairwise_cons]
    | none =>
      cases hlt : cc.loginType <;> simp only [hlt] <;>
        [cases hf : o.loginWithUsernamePassword cc.environmentUrl cc.userName cc.password;
         cases hf : o.loginWithClientIdSecret cc.environmentUrl cc.userName cc.password cc.tenantId;
         cases hf : o.loginWithPrompt customDataverseClientId false cc.environmentUrl;
         cases hf : o.loginWithAzure cc.environmentUrl] <;>
      simp [hf, Except.map, reauthStage, List.pairwise_cons]
  | false =>
    simp only [hrt, Bool.false_eq_true, if_false]
    cases hlt : cc.loginType <;> simp only [hlt] <;>
      [cases hf : o.loginWithUsernamePassword cc.environmentUrl cc.userName cc.password;
       cases hf : o.loginWithClientIdSecret cc.environmentUrl cc.userName cc.password cc.tenantId;
       cases hf : o.loginWithPrompt customDataverseClientId false cc.environmentUrl;
       cases hf : o.loginWithAzure cc.environmentUrl] <;>
    simp [hf, Except.map, reauthStage, List.pairwise_cons]

/-- Helper: every creation-flow trace is strictly ordered by
`creationStage`. -/
theorem addConnection_trace_ordered (inp : WizardInput) (o : AuthOracle) (st : Stores) :
    ((addConnection inp o st).2.2).Pairwise (fun a b => creationStage a < creationStage b) := by
  rcases connectionWizard_shape inp st with hw | ⟨conn, hw⟩
  · unfold addConnection
    rw [hw]
    simp
  · unfold addConnection
    rw [hw]
    rcases saveConnection_trace conn st with hs | hs <;>
      cases hci : connectInternal o conn.loginType conn <;>
      simp [hs, hci, creationStage, List.pairwise_cons]

/-- C8: in every creation-flow trace the registry write strictly precedes
the authentication call, which strictly precedes the Overlay write, and
in every reauthentication trace the read of the stored refresh token
strictly precedes the refresh attempt, which strictly precedes the
fallback attempt, which strictly precedes the Overlay write; on a
successful creation all three creation events occur, in that order. -/
theorem creation_and_reauth_ordering :
    (∀ inp o st, ((addConnection inp o st).2.2).Pairwise
        (fun a b => creationStage a < creationStage b))
    ∧ (∀ o st cc, ((reAuthenticate o st cc).trace).Pairwise
        (fun a b => reauthStage a < reauthStage b))
    ∧ (∀ inp o st st1 conn t,
        connectionWizard inp st = (some conn, st1, [Event.registryCreate]) →
        connectInternal o conn.loginType conn = Except.ok t →
        (addConnection inp o st).2.2 =
          [Event.registryCreate, Event.authenticate conn.loginType, Event.overlayWrite]) := by
  refine ⟨addConnection_trace_ordered, reAuthenticate_trace_ordered, ?_⟩
  intro inp o st st1 conn t hw hok
  unfold addConnection
  rw [hw]
  simp [hok]

/-- Witness for the ordering theorem: the concrete successful creation of
"c8" produces exactly the trace registry write, authentication, Overlay
write. -/
theorem creation_and_reauth_ordering_witness :
    (addConnection inpC8 oC8 stEmpty).2.2 =
      [Event.registryCreate, Event.authenticate connC8.loginType, Event.overlayWrite] :=
  creation_and_reauth_ordering.2.2 inpC8 oC8 stEmpty
    { workspace := none, global := some [connC8] } connC8 tokC8 rfl rfl

/-- C9 counterexample: with registry record "dev" and failing
credentials, the connect-to-existing flow settles with the
authentication error — it does not return undefined. The body returns
the progress task's promise from inside the try block without awaiting
it, so the rejection is adopted by the caller outside the try scope and
the empty catch never observes it. -/
theorem connectToDataverse_error_counterexample :
    (connectToDataverse oC9 (fun _ => none) "dev" stC2).1 = Except.error eC9
    ∧ (Except.error eC9 : Except AuthError (Option IConnection)) ≠ Except.ok none :=
  ⟨rfl, fun h => Except.noConfusion h⟩

/-- C9 (amended): an authentication failure is rethrown by the creation
flow, and in the connect-to-existing flow the progress task's promise is
returned without being awaited, so an authentication failure equally
propagates past the catch block; undefined is returned only when the
name resolves to no record. -/
theorem auth_error_propagation (o : AuthOracle) (st : Stores) :
    (∀ inp st1 ev1 conn e,
        connectionWizard inp st = (some conn, st1, ev1) →
        connectInternal o conn.loginType conn = Except.error e →
        (addConnection inp o st).1 = Except.error e)
    ∧ (∀ d connName conn e,
        getConnectionByName connName st = some conn →
        connectInternal o conn.loginType conn = Except.error e →
        (connectToDataverse o d connName st).1 = Except.error e)
    ∧ (∀ d connName,
        getConnectionByName connName st = none →
        (connectToDataverse o d connName st).1 = Except.ok none) := by
  refine ⟨?_, ?_, ?_⟩
  · intro inp st1 ev1 conn e hw he
    unfold addConnection
    rw [hw]
    simp [he]
  · intro d connName conn e hg he
    unfold connectToDataverse
    rw [hg]
    simp [he]
  · intro d connName hg
    unfold connectToDataverse
    rw [hg]

/-- Witness for the propagation theorem: reconnecting to "dev" with bad
credentials surfaces the authentication error to the caller. -/
theorem auth_error_propagation_witness :
    (connectToDataverse oC9 (fun _ => none) "dev" stC2).1 = Except.error eC9 :=
  (auth_error_propagation oC9 stC2).2.1 (fun _ => none) "dev" devConn eC9 rfl rfl

end DVDT
